import Mathlib

/-!
Verification of the `ModelFrame` bookkeeping layer
(`src/expandas/core/frame.py`).

A `ModelFrame` is a pandas `DataFrame` subclass carrying
  * a `target_name` marker partitioning the columns into a target column
    and feature ("data") columns,
  * a reference to the most recently used estimator, and
  * four memoized derived-result caches (`_predicted`, `_proba`,
    `_log_proba`, `_decision`).

The shallow embedding below models a frame as a row-label list plus an
ordered association list of named columns (cell values are integers,
which is enough for the bookkeeping logic: no numeric computation
happens in this layer).  estimator objects are modelled as records with
an identity (`id`, standing for Python object identity), a class name, a
list of method names present (`hasattr`), the sublist of those accepting
a `y` keyword argument (a call passing `y` to any other method raises
`TypeError`), and fixed return values.  Python exceptions are modelled
with `Except`.
-/

/-- Cell values of the table. -/
abbrev Val := Int

/-- A pandas `Series`: an optional name, row labels, and values.
`pandas` keeps `index` and `values` the same length; series built by the
definitions below always satisfy this. -/
structure Series where
  name : Option String
  index : List Int
  values : List Val
deriving DecidableEq, Repr

/-- A pandas `DataFrame`: row labels plus ordered named columns. -/
structure DataFrame where
  index : List Int
  cols : List (String × List Val)
deriving DecidableEq, Repr

/-- `DataFrame.values`: the raw 2-D value array, stripped of labels.
Encoded column-major (the list of column value lists); the encoding only
has to witness that the feature values, and nothing else, are passed to
estimator methods. -/
def DataFrame.values (d : DataFrame) : List (List Val) :=
  d.cols.map Prod.snd

/-- `Series.to_frame`: a single-column frame (an unnamed series would
get a default column name). -/
def Series.to_frame (s : Series) : DataFrame :=
  ⟨s.index, [(s.name.getD ".target", s.values)]⟩

/-- Python exceptions raised by the modelled code paths. -/
inductive PyErr where
  | valueError (msg : String)
  | typeError
  | attributeError
deriving DecidableEq, Repr

/-- The `data` argument of `ModelFrame.__init__` and of the mutators:
either `None` or a `pandas.DataFrame`.  (Other tabular inputs are
converted by pandas itself before this layer's logic runs; the claims
under verification only concern `None` and frame inputs.) -/
inductive PyData where
  | none
  | df (d : DataFrame)
deriving DecidableEq, Repr

/-- The `target` argument: `None`, a raw list-like of values, a
`pandas.Series`, or a scalar column name. -/
inductive PyTarget where
  | none
  | raw (vals : List Val)
  | series (s : Series)
  | col (n : String)
deriving DecidableEq, Repr

/-- `pandas.core.common.is_list_like`: true for arrays and series,
false for `None` and for strings (column names). -/
def PyTarget.is_list_like : PyTarget → Bool
  | .raw _ => true
  | .series _ => true
  | _ => false

/-- `pd.Series(vals, name=name, index=index)`: pandas raises
`ValueError` when the value and index lengths disagree. -/
def pd_series_with_index (vals : List Val) (name : String) (index : List Int) :
    Except PyErr Series :=
  if vals.length = index.length then .ok ⟨some name, index, vals⟩
  else .error (.valueError "Length of passed values does not match length of index")

/-- `pd.Series(vals, name=name)`: default integer row labels `0..n-1`. -/
def pd_series_default (vals : List Val) (name : String) : Series :=
  ⟨some name, (List.range vals.length).map Int.ofNat, vals⟩

/-- A converted target, after `_maybe_convert_data`: a raw list-like has
always been turned into a series by then. -/
inductive CTarget where
  | none
  | series (s : Series)
  | col (n : String)
deriving DecidableEq, Repr

/-- `ModelFrame._maybe_convert_data` (frame.py lines 104-141), on the
reachable input shapes: a raw list-like target is wrapped into a series
carrying the data's row labels when data is present (pandas raises on a
length mismatch), or default labels when data is `None`; series, column
names and `None` pass through; a `DataFrame` data argument needs no
conversion. -/
def maybe_convert_data (data : PyData) (target : PyTarget) (target_name : String) :
    Except PyErr (PyData × CTarget) :=
  match data, target with
  | .none, .raw vals => .ok (.none, .series (pd_series_default vals target_name))
  | .df d, .raw vals =>
    match pd_series_with_index vals target_name d.index with
    | .ok s => .ok (.df d, .series s)
    | .error e => .error e
  | dt, .series s => .ok (dt, .series s)
  | dt, .col n => .ok (dt, .col n)
  | dt, .none => .ok (dt, .none)

/-- `ModelFrame._concat_target` (frame.py lines 144-160): `len` of a
frame or series is its number of rows, i.e. the length of its row-label
list.  `pd.concat([target, data], axis=1)` puts the target column
first. -/
def concat_target (data : PyData) (target : Option Series) : Except PyErr DataFrame :=
  match data, target with
  | .none, Option.none => .error (.valueError "ModelFrame must have either data or target")
  | .none, some s => .ok s.to_frame
  | .df d, Option.none => .ok d
  | .df d, some s =>
    if d.index.length ≠ s.index.length then
      .error (.valueError "data and target must have same length")
    else if d.index ≠ s.index then
      .error (.valueError "data and target must have equal index")
    else .ok ⟨d.index, (s.name.getD ".target", s.values) :: d.cols⟩

/-- The `ModelFrame` state: the column store (row labels plus named
columns), the `_target_name` marker, the most-recent-estimator
reference (`_estimator`, a Python object identity modelled as `Nat`),
and the four memoized derived-result caches. -/
structure ModelFrame where
  index : List Int
  cols : List (String × List Val)
  target_name : String
  estimator : Option Nat
  predicted : Option (List Val)
  proba : Option (List Val)
  log_proba : Option (List Val)
  decision : Option (List Val)
deriving DecidableEq, Repr

/-- An externally supplied estimator object: `id` models Python object
identity (distinct objects have distinct ids), `className` its
`__class__.__name__`, `methods` the method names it exposes
(`hasattr`), `yMethods` the sublist whose signature accepts a `y`
keyword argument (passing `y` to any other method raises `TypeError`),
and `runY`/`runNoY` the opaque numeric results of a successful
invocation with / without `y`. -/
structure PyEstimator where
  id : Nat
  className : String
  methods : List String
  yMethods : List String
  runY : List Val
  runNoY : List Val
deriving DecidableEq, Repr

namespace ModelFrame

/-- The ordered column names of the frame. -/
def columns (mf : ModelFrame) : List String :=
  mf.cols.map Prod.fst

/-- `ModelFrame._data_columns` (lines 172-174): every column name except
the target name. -/
def data_columns (mf : ModelFrame) : List String :=
  mf.columns.filter (fun c => c != mf.target_name)

/-- `ModelFrame.has_data` (lines 162-170). -/
def has_data (mf : ModelFrame) : Bool :=
  decide (0 < mf.data_columns.length)

/-- `ModelFrame.has_target` (lines 219-227): membership of the target
name in the columns. -/
def has_target (mf : ModelFrame) : Bool :=
  decide (mf.target_name ∈ mf.columns)

/-- The values stored under the target column (first matching column). -/
def targetValues (mf : ModelFrame) : List Val :=
  ((mf.cols.find? (fun c => c.1 == mf.target_name)).map Prod.snd).getD []

/-- `ModelFrame.data` getter (lines 176-188): the feature-column view
`self.loc[:, self._data_columns]`, or `None` when there are no feature
columns. -/
def data (mf : ModelFrame) : Option DataFrame :=
  if mf.has_data then
    some ⟨mf.index, mf.cols.filter (fun c => c.1 != mf.target_name)⟩
  else none

/-- `ModelFrame.target` getter (lines 244-256): the target column as a
series, or `None` when the target name is not among the columns. -/
def target (mf : ModelFrame) : Option Series :=
  if mf.has_target then
    some ⟨some mf.target_name, mf.index, mf.targetValues⟩
  else none

/-- The `self.data` view repackaged as a constructor/mutator argument. -/
def data_as_pydata (mf : ModelFrame) : PyData :=
  match mf.data with
  | some d => .df d
  | none => .none

/-- `NDFrame._update_inplace`: replace the column store, keeping the
instance attributes (`_target_name`, `_estimator` and the caches). -/
def update_inplace (mf : ModelFrame) (d : DataFrame) : ModelFrame :=
  { mf with index := d.index, cols := d.cols }

/-- Build a fresh frame from a concatenated store (the tail of
`__init__`, lines 95-102): estimator and all caches start unset. -/
def mk_frame (d : DataFrame) (tn : String) : ModelFrame :=
  { index := d.index, cols := d.cols, target_name := tn,
    estimator := none, predicted := none, proba := none,
    log_proba := none, decision := none }

/-- `ModelFrame.__init__` (lines 49-102) on the input shapes the claims
concern (no `sklearn` `Bunch`, no extra pandas arguments, data either
`None` or a `DataFrame`): raise when both data and target are absent,
or when data is absent and target is not list-like; derive the target
name from a named series (renaming an unnamed one to `.target`),
otherwise use the `.target` default; convert a raw target via
`_maybe_convert_data`; a scalar target must name an existing data
column; otherwise concatenate target and data. -/
def init (data : PyData) (target : PyTarget) : Except PyErr ModelFrame :=
  if data = PyData.none ∧ target = PyTarget.none then
    .error (.valueError "ModelFrame must have either data or target")
  else if data = PyData.none ∧ ¬target.is_list_like then
    .error (.valueError "target must be list-like when data is None")
  else
    let tn_t : String × PyTarget :=
      match target with
      | .series s =>
        match s.name with
        | some n => (n, .series s)
        | Option.none => (".target", .series { s with name := some ".target" })
      | t => (".target", t)
    match maybe_convert_data data tn_t.2 tn_t.1 with
    | .error e => .error e
    | .ok (data2, ct) =>
      match ct with
      | .col n =>
        match data2 with
        | .df d =>
          if n ∈ d.cols.map Prod.fst then .ok (mk_frame d n)
          else .error (.valueError "Specified target is not included in data")
        | .none => .error .attributeError
      | .none =>
        match concat_target data2 Option.none with
        | .ok d => .ok (mk_frame d tn_t.1)
        | .error e => .error e
      | .series s =>
        match concat_target data2 (some s) with
        | .ok d => .ok (mk_frame d tn_t.1)
        | .error e => .error e

/-- `ModelFrame.target` deleter (lines 290-296): rebuild from the data
view when feature columns exist, otherwise raise (the data view is
`some` exactly when `has_data()` holds).  A raised error performs no
mutation. -/
def del_target (mf : ModelFrame) : Except PyErr ModelFrame :=
  match mf.data with
  | some d => .ok (mf.update_inplace d)
  | none => .error (.valueError "ModelFrame must have either data or target")

/-- `ModelFrame.data` deleter (lines 211-217): rebuild from
`self.target.to_frame()` when a target column exists, otherwise raise
(the target view is `some` exactly when `has_target()` holds). -/
def del_data (mf : ModelFrame) : Except PyErr ModelFrame :=
  match mf.target with
  | some s => .ok (mf.update_inplace s.to_frame)
  | none => .error (.valueError "ModelFrame must have either data or target")

/-- `ModelFrame.target` setter (lines 258-288).  Returns the updated
frame together with a flag recording whether the non-fatal
rename-on-assign warning was issued. -/
def set_target (mf : ModelFrame) (t : PyTarget) : Except PyErr (ModelFrame × Bool) :=
  match t with
  | .none =>
    match mf.del_target with
    | .ok mf2 => .ok (mf2, false)
    | .error e => .error e
  | .col n =>
    -- a scalar target is not list-like, so the name-update step does not fire
    if n ∈ mf.columns then .ok ({ mf with target_name := n }, false)
    else .error (.valueError "Specified target is not included in data")
  | .series s =>
    -- target_name may be updated only when no target column exists yet
    let mf :=
      if ¬mf.has_target then
        match s.name with
        | some n => { mf with target_name := n }
        | _ => mf
      else mf
    let warn : Bool := s.name != some mf.target_name
    let s2 := if warn then { s with name := some mf.target_name } else s
    match concat_target mf.data_as_pydata (some s2) with
    | .ok d => .ok (mf.update_inplace d, warn)
    | .error e => .error e
  | .raw vals =>
    match maybe_convert_data mf.data_as_pydata (.raw vals) mf.target_name with
    | .ok (_, .series s) =>
      match concat_target mf.data_as_pydata (some s) with
      | .ok d => .ok (mf.update_inplace d, false)
      | .error e => .error e
    | .ok _ => .error .typeError -- unreachable: a raw target always converts to a series
    | .error e => .error e

/-- `ModelFrame.estimator` setter (lines 309-317): attach the reference
and reset the four caches, but only when the assigned object differs by
identity (`is`) from the cached one. -/
def set_estimator (mf : ModelFrame) (v : Nat) : ModelFrame :=
  if mf.estimator = some v then mf
  else { mf with estimator := some v, predicted := none, proba := none,
                 log_proba := none, decision := none }

/-- `ModelFrame._call` (lines 390-405), with `_check_attr` (lines
379-383) inlined: locate the method (`ValueError` when absent), take
`self.data.values` (`AttributeError` when the data view is `None`);
with a target column, first invoke with the feature values positionally
and the target values as keyword `y`, re-invoking without `y` on
`TypeError`; without a target column, invoke with the feature values
only.  Besides the raw result and the post-state (the estimator is
attached on success), the model returns the trace of invocations
`(method name, feature values, optional y values)` actually made, in
order. -/
def call (mf : ModelFrame) (est : PyEstimator) (methodName : String) :
    Except PyErr (List Val × ModelFrame × List (String × List (List Val) × Option (List Val))) :=
  if methodName ∈ est.methods then
    match mf.data with
    | none => .error .attributeError
    | some d =>
      let X := d.values
      if mf.has_target then
        let y := mf.targetValues
        if methodName ∈ est.yMethods then
          .ok (est.runY, mf.set_estimator est.id, [(methodName, X, some y)])
        else
          .ok (est.runNoY, mf.set_estimator est.id,
               [(methodName, X, some y), (methodName, X, Option.none)])
      else
        .ok (est.runNoY, mf.set_estimator est.id, [(methodName, X, Option.none)])
  else .error (.valueError "estimator does not have the requested method")

/-- `ModelFrame.fit` (lines 420-423): a thin wrapper around `_call`. -/
def fit (mf : ModelFrame) (est : PyEstimator) : Except PyErr (List Val × ModelFrame) :=
  match mf.call est "fit" with
  | .ok (r, mf2, _) => .ok (r, mf2)
  | .error e => .error e

/-- `ModelFrame.score` (lines 492-496): a thin wrapper around `_call`. -/
def score (mf : ModelFrame) (est : PyEstimator) : Except PyErr (List Val × ModelFrame) :=
  match mf.call est "score" with
  | .ok (r, mf2, _) => .ok (r, mf2)
  | .error e => .error e

/-- Modelled from the spec: `skaccessors.GaussianProcessMethods._predict`
(the `_mapper` special case of `ModelFrame.predict`, line 39) lives in
`expandas/skaccessors`, which is not under `src/`; the spec describes
the façade only.  Modelled as an opaque successful call returning the
estimator's predict result and leaving the frame untouched (the façade
itself attaches the estimator afterwards, line 432). -/
def gaussian_process_predict (mf : ModelFrame) (est : PyEstimator) : List Val × ModelFrame :=
  (est.runNoY, mf)

/-- `ModelFrame.predict` (lines 427-435) with `_wrap_predicted` (lines
443-453): the `_mapper` branch fires exactly for class name
`GaussianProcess` and attaches the estimator directly; otherwise
`_call` runs and the `_predicted` cache is set to the (wrapped)
result. -/
def predict (mf : ModelFrame) (est : PyEstimator) : Except PyErr (List Val × ModelFrame) :=
  if est.className == "GaussianProcess" then
    let rf := gaussian_process_predict mf est
    .ok (rf.1, rf.2.set_estimator est.id)
  else
    match mf.call est "predict" with
    | .ok (r, mf2, _) => .ok (r, { mf2 with predicted := some r })
    | .error e => .error e

/-- `ModelFrame.predict_proba` (lines 455-460) with `_wrap_probability`:
`_call` runs and the `_proba` cache is set to the (wrapped) result. -/
def predict_proba (mf : ModelFrame) (est : PyEstimator) : Except PyErr (List Val × ModelFrame) :=
  match mf.call est "predict_proba" with
  | .ok (r, mf2, _) => .ok (r, { mf2 with proba := some r })
  | .error e => .error e

/-- `ModelFrame.predict_log_proba` (lines 462-467). -/
def predict_log_proba (mf : ModelFrame) (est : PyEstimator) :
    Except PyErr (List Val × ModelFrame) :=
  match mf.call est "predict_log_proba" with
  | .ok (r, mf2, _) => .ok (r, { mf2 with log_proba := some r })
  | .error e => .error e

end ModelFrame

/-! Concrete objects used by the witness theorems. -/

/-- A two-row frame with one feature column `x` and target `.target`. -/
def exF : ModelFrame :=
  { index := [0, 1], cols := [(".target", [1, 0]), ("x", [10, 20])],
    target_name := ".target", estimator := none, predicted := none,
    proba := none, log_proba := none, decision := none }

/-- A stub estimator exposing `predict_proba` (accepting `y`). -/
def exE1 : PyEstimator :=
  { id := 1, className := "StubA", methods := ["predict_proba"],
    yMethods := ["predict_proba"], runY := [7, 7], runNoY := [9] }

/-- A stub estimator exposing only `predict` and `fit`, rejecting `y`. -/
def exE2 : PyEstimator :=
  { id := 2, className := "StubB", methods := ["predict", "fit"],
    yMethods := [], runY := [], runNoY := [3, 4] }

/-- `exF` after a `predict_proba` dispatch with `exE1`. -/
def exF1 : ModelFrame :=
  { exF with estimator := some 1, proba := some [7, 7] }

/-- `exF1` after a `predict` dispatch with `exE2`. -/
def exF2 : ModelFrame :=
  { exF with estimator := some 2, predicted := some [3, 4] }

/-- A replacement target series whose name disagrees with `.target`. -/
def exSeries : Series :=
  ⟨some "other", [0, 1], [5, 6]⟩

/-- A frame holding only a target column. -/
def exTargetOnly : ModelFrame :=
  { index := [0, 1], cols := [(".target", [1, 0])],
    target_name := ".target", estimator := none, predicted := none,
    proba := none, log_proba := none, decision := none }

/-- A frame with no columns at all. -/
def exEmpty : ModelFrame :=
  { index := [], cols := [], target_name := ".target", estimator := none,
    predicted := none, proba := none, log_proba := none, decision := none }

/-- A two-row data frame used by the construction witnesses. -/
def exD : DataFrame :=
  ⟨[0, 1], [("x", [10, 20])]⟩

/-! General list lemmas about the column store. -/

theorem list_filter_idem {α : Type} (p : α → Bool) (l : List α) :
    (l.filter p).filter p = l.filter p := by
  induction l with
  | nil => rfl
  | cons a l ih => by_cases h : p a <;> simp [List.filter_cons, h, ih]

theorem map_fst_filter (l : List (String × List Val)) (p : String → Bool) :
    (l.filter (fun c => p c.1)).map Prod.fst = (l.map Prod.fst).filter p := by
  induction l with
  | nil => rfl
  | cons a l ih => by_cases h : p a.1 <;> simp [List.filter_cons, h, ih]

theorem map_fst_filter_ne (l : List (String × List Val)) (tn : String) :
    (l.filter (fun c => c.1 != tn)).map Prod.fst =
      (l.map Prod.fst).filter (fun c => c != tn) :=
  map_fst_filter l (fun c => c != tn)

namespace ModelFrame

/-! Shape lemmas about the embedded operations. -/

theorem set_estimator_estimator (mf : ModelFrame) (v : Nat) :
    (mf.set_estimator v).estimator = some v := by
  unfold set_estimator
  split
  · next h => exact h
  · rfl

theorem set_estimator_of_eq (mf : ModelFrame) (v : Nat) (h : mf.estimator = some v) :
    mf.set_estimator v = mf := by
  unfold set_estimator
  exact if_pos h

theorem set_estimator_of_ne (mf : ModelFrame) (v : Nat) (h : mf.estimator ≠ some v) :
    mf.set_estimator v =
      { mf with estimator := some v, predicted := none, proba := none,
                log_proba := none, decision := none } := by
  unfold set_estimator
  exact if_neg h

theorem data_of_not_has_data (mf : ModelFrame) (h : mf.has_data = false) :
    mf.data = none := by
  unfold data
  rw [h]
  rfl

theorem data_of_has_data (mf : ModelFrame) (h : mf.has_data = true) :
    mf.data = some ⟨mf.index, mf.cols.filter (fun c => c.1 != mf.target_name)⟩ := by
  unfold data
  rw [h]
  rfl

theorem target_of_has_target (mf : ModelFrame) (h : mf.has_target = true) :
    mf.target = some ⟨some mf.target_name, mf.index, mf.targetValues⟩ := by
  unfold target
  rw [h]
  rfl

theorem call_ok_frame (mf : ModelFrame) (est : PyEstimator) (m : String)
    (r : List Val) (mf2 : ModelFrame)
    (tr : List (String × List (List Val) × Option (List Val)))
    (h : mf.call est m = .ok (r, mf2, tr)) :
    mf2 = mf.set_estimator est.id := by
  unfold call at h
  split at h
  · split at h
    · exact absurd h (by simp)
    · split at h
      · split at h
        · simp only [Except.ok.injEq, Prod.mk.injEq] at h
          exact h.2.1.symm
        · simp only [Except.ok.injEq, Prod.mk.injEq] at h
          exact h.2.1.symm
      · simp only [Except.ok.injEq, Prod.mk.injEq] at h
        exact h.2.1.symm
  · exact absurd h (by simp)

theorem predict_proba_ok (mf : ModelFrame) (est : PyEstimator)
    (r : List Val) (mf2 : ModelFrame)
    (h : mf.predict_proba est = .ok (r, mf2)) :
    mf2 = { mf.set_estimator est.id with proba := some r } := by
  unfold predict_proba at h
  split at h
  · next r0 mf0 tr0 heq =>
    simp only [Except.ok.injEq, Prod.mk.injEq] at h
    obtain ⟨hr, hm⟩ := h
    subst hr
    subst hm
    rw [call_ok_frame mf est "predict_proba" r0 mf0 tr0 heq]
  · exact absurd h (by simp)

theorem predict_ok (mf : ModelFrame) (est : PyEstimator)
    (r : List Val) (mf2 : ModelFrame)
    (hgp : est.className ≠ "GaussianProcess")
    (h : mf.predict est = .ok (r, mf2)) :
    mf2 = { mf.set_estimator est.id with predicted := some r } := by
  unfold predict at h
  rw [if_neg (by simpa using hgp)] at h
  split at h
  · next r0 mf0 tr0 heq =>
    simp only [Except.ok.injEq, Prod.mk.injEq] at h
    obtain ⟨hr, hm⟩ := h
    subst hr
    subst hm
    rw [call_ok_frame mf est "predict" r0 mf0 tr0 heq]
  · exact absurd h (by simp)

end ModelFrame

/-! The claim theorems. -/

/-- C6: constructing a `ModelFrame` with both `data` and `target` absent
raises an immediate `ValueError` rather than producing an empty table. -/
theorem init_requires_data_or_target :
    ModelFrame.init PyData.none PyTarget.none =
      .error (.valueError "ModelFrame must have either data or target") := by
  rfl

/-- C8: constructing with `data` absent and a list-like `target` yields a
frame consisting solely of the target column: `has_data()` is false and
`has_target()` is true. -/
theorem init_target_only_has_target_no_data (vals : List Val) (s : Series) :
    (∃ mf, ModelFrame.init PyData.none (.raw vals) = .ok mf ∧
      mf.has_data = false ∧ mf.has_target = true) ∧
    (∃ mf, ModelFrame.init PyData.none (.series s) = .ok mf ∧
      mf.has_data = false ∧ mf.has_target = true) := by
  constructor
  · refine ⟨ModelFrame.mk_frame (Series.to_frame (pd_series_default vals ".target"))
      ".target", ?_, ?_, ?_⟩
    · simp [ModelFrame.init, PyTarget.is_list_like, maybe_convert_data, concat_target]
    · simp [ModelFrame.has_data, ModelFrame.data_columns, ModelFrame.columns,
        ModelFrame.mk_frame, Series.to_frame, pd_series_default]
    · simp [ModelFrame.has_target, ModelFrame.columns, ModelFrame.mk_frame,
        Series.to_frame, pd_series_default]
  · cases hn : s.name with
    | none =>
      refine ⟨ModelFrame.mk_frame (Series.to_frame { s with name := some ".target" })
        ".target", ?_, ?_, ?_⟩
      · simp [ModelFrame.init, PyTarget.is_list_like, maybe_convert_data, concat_target, hn]
      · simp [ModelFrame.has_data, ModelFrame.data_columns, ModelFrame.columns,
          ModelFrame.mk_frame, Series.to_frame]
      · simp [ModelFrame.has_target, ModelFrame.columns, ModelFrame.mk_frame,
          Series.to_frame]
    | some n =>
      refine ⟨ModelFrame.mk_frame (Series.to_frame s) n, ?_, ?_, ?_⟩
      · simp [ModelFrame.init, PyTarget.is_list_like, maybe_convert_data, concat_target, hn]
      · simp [ModelFrame.has_data, ModelFrame.data_columns, ModelFrame.columns,
          ModelFrame.mk_frame, Series.to_frame, hn]
      · simp [ModelFrame.has_target, ModelFrame.columns, ModelFrame.mk_frame,
          Series.to_frame, hn]

/-- C9: assigning to `estimator` the object already cached (identical
reference) leaves the frame, in particular all four memoized caches,
unchanged; when the reference differs by identity, the caches are reset
and the reference is updated. -/
theorem set_estimator_identity_preserves_caches (mf : ModelFrame) (v : Nat) :
    (mf.estimator = some v → mf.set_estimator v = mf) ∧
    (mf.estimator ≠ some v →
      mf.set_estimator v =
        { mf with estimator := some v, predicted := none, proba := none,
                  log_proba := none, decision := none }) :=
  ⟨ModelFrame.set_estimator_of_eq mf v, ModelFrame.set_estimator_of_ne mf v⟩

/-- Witness for C9 at concrete frames: an identical re-assignment keeps
the cached `proba`; a differing assignment resets it. -/
theorem set_estimator_identity_preserves_caches_witness :
    ({ exF1 with estimator := some 1 }.estimator = some 1 ∧
      { exF1 with estimator := some 1 }.set_estimator 1 = { exF1 with estimator := some 1 }) ∧
    (exF1.estimator ≠ some 9 ∧
      exF1.set_estimator 9 =
        { exF1 with estimator := some 9, predicted := none, proba := none,
                    log_proba := none, decision := none }) :=
  ⟨⟨rfl, (set_estimator_identity_preserves_caches { exF1 with estimator := some 1 } 1).1 rfl⟩,
   ⟨by decide,
    (set_estimator_identity_preserves_caches exF1 9).2 (by decide)⟩⟩

/-- C10: the `data` accessor returns `None` (not an empty table) when the
frame has no feature columns, and the `target` accessor returns `None`
(rather than raising) when `target_name` is not among the columns. -/
theorem accessors_return_none_when_absent (mf : ModelFrame) :
    (mf.has_data = false → mf.data = none) ∧
    (mf.target_name ∉ mf.columns → mf.target = none) := by
  constructor
  · exact ModelFrame.data_of_not_has_data mf
  · intro h
    unfold ModelFrame.target
    rw [if_neg]
    simp [ModelFrame.has_target, h]

/-- Witness for C10 at the empty frame. -/
theorem accessors_return_none_when_absent_witness :
    (exEmpty.has_data = false ∧ exEmpty.data = none) ∧
    (exEmpty.target_name ∉ exEmpty.columns ∧ exEmpty.target = none) :=
  ⟨⟨rfl, (accessors_return_none_when_absent exEmpty).1 rfl⟩,
   ⟨by decide, (accessors_return_none_when_absent exEmpty).2 (by decide)⟩⟩

/-- C2: a dispatch on a frame with a target column first invokes the
located method with the feature values as the primary positional
argument and the target values as keyword `y`; if the method rejects the
keyword (`TypeError`), it is re-invoked with the feature values only;
on a frame without a target column the method is invoked once, with the
feature values only. The trace records each invocation made, in order,
as `(method name, feature values, optional y values)`. -/
theorem call_passes_target_as_y_with_typeerror_fallback
    (mf : ModelFrame) (e : PyEstimator) (m : String) (d : DataFrame)
    (hm : m ∈ e.methods) (hd : mf.data = some d) :
    (mf.has_target = true → m ∈ e.yMethods →
      mf.call e m =
        .ok (e.runY, mf.set_estimator e.id, [(m, d.values, some mf.targetValues)])) ∧
    (mf.has_target = true → m ∉ e.yMethods →
      mf.call e m =
        .ok (e.runNoY, mf.set_estimator e.id,
             [(m, d.values, some mf.targetValues), (m, d.values, none)])) ∧
    (mf.has_target = false →
      mf.call e m = .ok (e.runNoY, mf.set_estimator e.id, [(m, d.values, none)])) := by
  refine ⟨fun h1 h2 => ?_, fun h1 h2 => ?_, fun h1 => ?_⟩
  · simp [ModelFrame.call, hm, hd, h1, h2]
  · simp [ModelFrame.call, hm, hd, h1, h2]
  · simp [ModelFrame.call, hm, hd, h1]

/-- Witness for C2: `fit` on `exF` (which has a target) with `exE2`
(whose `fit` rejects `y`) is invoked with `y` and then re-invoked
without it. -/
theorem call_passes_target_as_y_with_typeerror_fallback_witness :
    ("fit" ∈ exE2.methods ∧ exF.data = some ⟨[0, 1], [("x", [10, 20])]⟩ ∧
      exF.has_target = true ∧ "fit" ∉ exE2.yMethods) ∧
    exF.call exE2 "fit" =
      .ok (exE2.runNoY, exF.set_estimator exE2.id,
           [("fit", [[10, 20]], some [1, 0]), ("fit", [[10, 20]], none)]) :=
  ⟨⟨by decide, rfl, rfl, by decide⟩,
   (call_passes_target_as_y_with_typeerror_fallback exF exE2 "fit"
      ⟨[0, 1], [("x", [10, 20])]⟩ (by decide) rfl).2.1 rfl (by decide)⟩

/-- C1: a successful `predict_proba` dispatch caches the estimator and
the probabilities; a following successful `predict` dispatch with a
different estimator attaches the new estimator and the attachment resets
the previously cached `proba` (and the other derived caches it does not
itself refill). In general, every successful call through the dispatch
façade updates the cached most-recent-estimator reference to the passed
estimator, and when that reference differs from the cached one the
attachment resets all four memoized derived-result caches to unset. -/
theorem dispatch_attaches_estimator_and_resets_caches
    (mf mf1 mf2 : ModelFrame) (e1 e2 : PyEstimator) (r1 r2 : List Val)
    (h1 : mf.predict_proba e1 = .ok (r1, mf1))
    (h2 : mf1.predict e2 = .ok (r2, mf2))
    (hgp : e2.className ≠ "GaussianProcess")
    (hne : e2.id ≠ e1.id) :
    mf1.estimator = some e1.id ∧ mf1.proba = some r1 ∧
    mf2.estimator = some e2.id ∧ mf2.proba = none ∧
    mf2.log_proba = none ∧ mf2.decision = none ∧
    (∀ (g g2 : ModelFrame) (e : PyEstimator) (m : String) (r : List Val)
       (tr : List (String × List (List Val) × Option (List Val))),
      g.call e m = .ok (r, g2, tr) →
      g2.estimator = some e.id ∧
      (g.estimator ≠ some e.id →
        g2.predicted = none ∧ g2.proba = none ∧ g2.log_proba = none ∧
          g2.decision = none)) := by
  have hf1 := ModelFrame.predict_proba_ok mf e1 r1 mf1 h1
  have hf2 := ModelFrame.predict_ok mf1 e2 r2 mf2 hgp h2
  have hest1 : mf1.estimator = some e1.id := by
    rw [hf1]
    exact ModelFrame.set_estimator_estimator mf e1.id
  have hne1 : mf1.estimator ≠ some e2.id := by
    rw [hest1]
    simp [Ne.symm hne]
  have hreset := ModelFrame.set_estimator_of_ne mf1 e2.id hne1
  refine ⟨hest1, by rw [hf1], ?_, ?_, ?_, ?_, ?_⟩
  · rw [hf2]
    exact ModelFrame.set_estimator_estimator mf1 e2.id
  · rw [hf2, hreset]
  · rw [hf2, hreset]
  · rw [hf2, hreset]
  · intro g g2 e m r tr hcall
    have hg := ModelFrame.call_ok_frame g e m r g2 tr hcall
    refine ⟨hg ▸ ModelFrame.set_estimator_estimator g e.id, fun hgne => ?_⟩
    rw [hg, ModelFrame.set_estimator_of_ne g e.id hgne]
    exact ⟨rfl, rfl, rfl, rfl⟩

/-- Witness for C1: `predict_proba` with `exE1` then `predict` with
`exE2` on the concrete frame `exF`; the cached `proba` is reset. -/
theorem dispatch_attaches_estimator_and_resets_caches_witness :
    (exF.predict_proba exE1 = .ok ([7, 7], exF1) ∧
      exF1.predict exE2 = .ok ([3, 4], exF2) ∧
      exE2.className ≠ "GaussianProcess" ∧ exE2.id ≠ exE1.id) ∧
    (exF1.estimator = some exE1.id ∧ exF1.proba = some [7, 7] ∧
      exF2.estimator = some exE2.id ∧ exF2.proba = none) :=
  ⟨⟨rfl, rfl, by decide, by decide⟩,
   ⟨(dispatch_attaches_estimator_and_resets_caches exF exF1 exF2 exE1 exE2
       [7, 7] [3, 4] rfl rfl (by decide) (by decide)).1,
    (dispatch_attaches_estimator_and_resets_caches exF exF1 exF2 exE1 exE2
       [7, 7] [3, 4] rfl rfl (by decide) (by decide)).2.1,
    (dispatch_attaches_estimator_and_resets_caches exF exF1 exF2 exE1 exE2
       [7, 7] [3, 4] rfl rfl (by decide) (by decide)).2.2.1,
    (dispatch_attaches_estimator_and_resets_caches exF exF1 exF2 exE1 exE2
       [7, 7] [3, 4] rfl rfl (by decide) (by decide)).2.2.2.1⟩⟩

/-- C3: when `target_name` is a column name `N` present in the frame,
the derived data view excludes exactly the target column: `N` is not
among the data columns, a name is a data column exactly when it is a
column other than `N`, and the data view is carved out of the same
column store (same row labels, the store filtered by name).  The
statement quantifies over every frame state, so the partition is
preserved by every operation. -/
theorem data_view_excludes_exactly_target (mf : ModelFrame) (n : String)
    (hn : mf.target_name = n) (hmem : n ∈ mf.columns) :
    mf.target_name = n ∧ n ∉ mf.data_columns ∧
    (∀ c, c ∈ mf.data_columns ↔ c ∈ mf.columns ∧ c ≠ n) ∧
    (∀ d, mf.data = some d →
      d.index = mf.index ∧ d.cols = mf.cols.filter (fun c => c.1 != n)) := by
  subst hn
  refine ⟨rfl, ?_, ?_, ?_⟩
  · simp [ModelFrame.data_columns, List.mem_filter]
  · intro c
    simp [ModelFrame.data_columns, List.mem_filter]
  · intro d hd
    unfold ModelFrame.data at hd
    split at hd
    · simp only [Option.some.injEq] at hd
      subst hd
      exact ⟨rfl, rfl⟩
    · exact absurd hd (by simp)

/-- Witness for C3 at the concrete frame `exF`. -/
theorem data_view_excludes_exactly_target_witness :
    (exF.target_name = ".target" ∧ ".target" ∈ exF.columns) ∧
    ".target" ∉ exF.data_columns ∧
    (∀ d, exF.data = some d →
      d.index = exF.index ∧ d.cols = exF.cols.filter (fun c => c.1 != ".target")) :=
  ⟨⟨rfl, by decide⟩,
   (data_view_excludes_exactly_target exF ".target" rfl (by decide)).2.1,
   (data_view_excludes_exactly_target exF ".target" rfl (by decide)).2.2.2⟩

/-- C5: deleting `target` on a frame with no feature columns raises a
`ValueError` (the functional embedding returns the error without a new
state: the deleter raises before any mutation); with feature columns it
succeeds and leaves exactly the feature columns (so the result still has
data).  Symmetrically, deleting `data` raises when no target column
exists, and otherwise leaves exactly the target column (so the result
still has a target): no deletion leaves the frame with neither. -/
theorem deleters_require_remaining_view (mf : ModelFrame) :
    (mf.has_data = false →
      mf.del_target = .error (.valueError "ModelFrame must have either data or target")) ∧
    (mf.has_data = true →
      ∃ mf2, mf.del_target = .ok mf2 ∧ mf2.index = mf.index ∧
        mf2.columns = mf.data_columns ∧ mf2.target_name = mf.target_name ∧
        mf2.has_target = false ∧ mf2.has_data = true) ∧
    (mf.has_target = false →
      mf.del_data = .error (.valueError "ModelFrame must have either data or target")) ∧
    (mf.has_target = true →
      ∃ mf2, mf.del_data = .ok mf2 ∧ mf2.columns = [mf.target_name] ∧
        mf2.has_target = true ∧ mf2.has_data = false) := by
  refine ⟨fun h => ?_, fun h => ?_, fun h => ?_, fun h => ?_⟩
  · unfold ModelFrame.del_target
    rw [ModelFrame.data_of_not_has_data mf h]
  · refine ⟨mf.update_inplace ⟨mf.index, mf.cols.filter (fun c => c.1 != mf.target_name)⟩,
      ?_, rfl, ?_, rfl, ?_, ?_⟩
    · unfold ModelFrame.del_target
      rw [ModelFrame.data_of_has_data mf h]
    · simp [ModelFrame.update_inplace, ModelFrame.columns, ModelFrame.data_columns,
        map_fst_filter_ne]
    · simp [ModelFrame.has_target, ModelFrame.update_inplace, ModelFrame.columns,
        map_fst_filter_ne, List.mem_filter]
    · unfold ModelFrame.has_data ModelFrame.data_columns at h ⊢
      simp only [ModelFrame.update_inplace, ModelFrame.columns, map_fst_filter_ne,
        list_filter_idem]
      exact h
  · unfold ModelFrame.del_data ModelFrame.target
    rw [h]
    rfl
  · refine ⟨mf.update_inplace
        (Series.to_frame ⟨some mf.target_name, mf.index, mf.targetValues⟩),
      ?_, ?_, ?_, ?_⟩
    · unfold ModelFrame.del_data
      rw [ModelFrame.target_of_has_target mf h]
    · simp [ModelFrame.update_inplace, ModelFrame.columns, Series.to_frame]
    · simp [ModelFrame.has_target, ModelFrame.update_inplace, ModelFrame.columns,
        Series.to_frame]
    · simp [ModelFrame.has_data, ModelFrame.data_columns, ModelFrame.update_inplace,
        ModelFrame.columns, Series.to_frame]

/-- Witness for C5: on `exF` (features and target) both deletions
succeed; on `exTargetOnly` (no features) deleting the target errors. -/
theorem deleters_require_remaining_view_witness :
    (exF.has_data = true ∧
      ∃ mf2, exF.del_target = .ok mf2 ∧ mf2.index = exF.index ∧
        mf2.columns = exF.data_columns ∧ mf2.target_name = exF.target_name ∧
        mf2.has_target = false ∧ mf2.has_data = true) ∧
    (exF.has_target = true ∧
      ∃ mf2, exF.del_data = .ok mf2 ∧ mf2.columns = [exF.target_name] ∧
        mf2.has_target = true ∧ mf2.has_data = false) ∧
    (exTargetOnly.has_data = false ∧
      exTargetOnly.del_target =
        .error (.valueError "ModelFrame must have either data or target")) :=
  ⟨⟨rfl, (deleters_require_remaining_view exF).2.1 rfl⟩,
   ⟨rfl, (deleters_require_remaining_view exF).2.2.2 rfl⟩,
   ⟨rfl, (deleters_require_remaining_view exTargetOnly).1 rfl⟩⟩

/-- C7: constructing from tabular data plus a raw (not index-labelled)
equal-length target succeeds, the target being assigned the data's row
labels positionally (the resulting store carries the data's row labels
and prepends the `.target` column); an explicit index-labelled series
target whose row labels differ from the data's (in particular, whose
length differs) fails construction with a `ValueError`. -/
theorem init_aligns_raw_target_and_rejects_mismatched_series (d : DataFrame) :
    (∀ vals : List Val, vals.length = d.index.length →
      ModelFrame.init (.df d) (.raw vals) =
        .ok (ModelFrame.mk_frame ⟨d.index, (".target", vals) :: d.cols⟩ ".target")) ∧
    (∀ s : Series, s.index ≠ d.index →
      ∃ msg, ModelFrame.init (.df d) (.series s) = .error (.valueError msg)) := by
  constructor
  · intro vals hlen
    simp [ModelFrame.init, PyTarget.is_list_like, maybe_convert_data,
      pd_series_with_index, hlen, concat_target]
  · intro s hne
    by_cases hl : d.index.length = s.index.length
    · refine ⟨"data and target must have equal index", ?_⟩
      cases hn : s.name <;>
        simp [ModelFrame.init, PyTarget.is_list_like, maybe_convert_data,
          concat_target, hn, hl, Ne.symm hne]
    · refine ⟨"data and target must have same length", ?_⟩
      cases hn : s.name <;>
        simp [ModelFrame.init, PyTarget.is_list_like, maybe_convert_data,
          concat_target, hn, hl]

/-- Witness for C7 at a concrete data frame: an equal-length raw target
aligns, a series with foreign row labels is rejected. -/
theorem init_aligns_raw_target_and_rejects_mismatched_series_witness :
    (([5, 6] : List Val).length = exD.index.length ∧
      ModelFrame.init (.df exD) (.raw [5, 6]) =
        .ok (ModelFrame.mk_frame ⟨exD.index, (".target", [5, 6]) :: exD.cols⟩ ".target")) ∧
    ((⟨some "t", [9], [5]⟩ : Series).index ≠ exD.index ∧
      ∃ msg, ModelFrame.init (.df exD) (.series ⟨some "t", [9], [5]⟩) =
        .error (.valueError msg)) :=
  ⟨⟨rfl, (init_aligns_raw_target_and_rejects_mismatched_series exD).1 [5, 6] rfl⟩,
   ⟨by decide, (init_aligns_raw_target_and_rejects_mismatched_series exD).2
      ⟨some "t", [9], [5]⟩ (by decide)⟩⟩

/-! Helper lemmas about replacing the target column in the store. -/

theorem ModelFrame.data_as_pydata_of_has_data (mf : ModelFrame) (h : mf.has_data = true) :
    mf.data_as_pydata =
      .df ⟨mf.index, mf.cols.filter (fun c => c.1 != mf.target_name)⟩ := by
  unfold ModelFrame.data_as_pydata
  rw [ModelFrame.data_of_has_data mf h]

theorem ModelFrame.data_as_pydata_of_no_data (mf : ModelFrame) (h : mf.has_data = false) :
    mf.data_as_pydata = .none := by
  unfold ModelFrame.data_as_pydata
  rw [ModelFrame.data_of_not_has_data mf h]

theorem ModelFrame.data_columns_update_cons (mf : ModelFrame) (vals : List Val) :
    (mf.update_inplace ⟨mf.index, (mf.target_name, vals) ::
        mf.cols.filter (fun c => c.1 != mf.target_name)⟩).data_columns
      = mf.data_columns := by
  simp [ModelFrame.data_columns, ModelFrame.columns, ModelFrame.update_inplace,
    List.filter_cons, map_fst_filter_ne, list_filter_idem]

theorem ModelFrame.update_target_cons_spec (mf : ModelFrame) (vals : List Val)
    (h : mf.has_data = true) :
    (mf.update_inplace ⟨mf.index, (mf.target_name, vals) ::
        mf.cols.filter (fun c => c.1 != mf.target_name)⟩).data = mf.data ∧
    (mf.update_inplace ⟨mf.index, (mf.target_name, vals) ::
        mf.cols.filter (fun c => c.1 != mf.target_name)⟩).targetValues = vals ∧
    (mf.update_inplace ⟨mf.index, (mf.target_name, vals) ::
        mf.cols.filter (fun c => c.1 != mf.target_name)⟩).has_target = true := by
  refine ⟨?_, ?_, ?_⟩
  · have h2 : (mf.update_inplace ⟨mf.index, (mf.target_name, vals) ::
        mf.cols.filter (fun c => c.1 != mf.target_name)⟩).has_data = true := by
      unfold ModelFrame.has_data at h ⊢
      rw [ModelFrame.data_columns_update_cons]
      exact h
    rw [ModelFrame.data_of_has_data _ h2, ModelFrame.data_of_has_data mf h]
    simp [ModelFrame.update_inplace, List.filter_cons, list_filter_idem]
  · simp [ModelFrame.targetValues, ModelFrame.update_inplace]
  · simp [ModelFrame.has_target, ModelFrame.update_inplace, ModelFrame.columns]

theorem ModelFrame.update_target_only_spec (mf : ModelFrame) (vals : List Val)
    (idx : List Int) (h : mf.has_data = false) :
    (mf.update_inplace ⟨idx, [(mf.target_name, vals)]⟩).data = mf.data ∧
    (mf.update_inplace ⟨idx, [(mf.target_name, vals)]⟩).targetValues = vals ∧
    (mf.update_inplace ⟨idx, [(mf.target_name, vals)]⟩).has_target = true := by
  refine ⟨?_, ?_, ?_⟩
  · rw [ModelFrame.data_of_not_has_data mf h, ModelFrame.data_of_not_has_data]
    simp [ModelFrame.has_data, ModelFrame.data_columns, ModelFrame.columns,
      ModelFrame.update_inplace, List.filter_cons]
  · simp [ModelFrame.targetValues, ModelFrame.update_inplace]
  · simp [ModelFrame.has_target, ModelFrame.update_inplace, ModelFrame.columns]

/-- C4: on a frame with an existing target column, assigning `target` an
array-like of the same length with an aligned index replaces the target
column (the new values are stored under the unchanged `target_name`)
while leaving the feature view unchanged; when the assigned value is a
series whose name differs from the current `target_name`, it is renamed
to it and the non-fatal rename warning is issued (and only then). -/
theorem set_target_replaces_target_preserves_features (mf : ModelFrame)
    (hT : mf.has_target = true) :
    (∀ s : Series, s.index = mf.index →
      ∃ mf2 warned, mf.set_target (.series s) = .ok (mf2, warned) ∧
        mf2.data = mf.data ∧ mf2.target_name = mf.target_name ∧
        mf2.index = mf.index ∧ mf2.targetValues = s.values ∧
        mf2.has_target = true ∧ warned = (s.name != some mf.target_name)) ∧
    (∀ vals : List Val, mf.has_data = true → vals.length = mf.index.length →
      ∃ mf2, mf.set_target (.raw vals) = .ok (mf2, false) ∧
        mf2.data = mf.data ∧ mf2.target_name = mf.target_name ∧
        mf2.index = mf.index ∧ mf2.targetValues = vals ∧ mf2.has_target = true) := by
  constructor
  · intro s hidx
    by_cases hd : mf.has_data
    · refine ⟨mf.update_inplace ⟨mf.index, (mf.target_name, s.values) ::
          mf.cols.filter (fun c => c.1 != mf.target_name)⟩,
        s.name != some mf.target_name, ?_, ?_, rfl, rfl, ?_, ?_, rfl⟩
      · by_cases hw : s.name = some mf.target_name
        · simp [ModelFrame.set_target, hT, hw,
            ModelFrame.data_as_pydata_of_has_data mf hd, concat_target, hidx]
        · simp [ModelFrame.set_target, hT, hw,
            ModelFrame.data_as_pydata_of_has_data mf hd, concat_target, hidx]
      · exact (ModelFrame.update_target_cons_spec mf s.values hd).1
      · exact (ModelFrame.update_target_cons_spec mf s.values hd).2.1
      · exact (ModelFrame.update_target_cons_spec mf s.values hd).2.2
    · have hd0 : mf.has_data = false := by simpa using hd
      refine ⟨mf.update_inplace ⟨s.index, [(mf.target_name, s.values)]⟩,
        s.name != some mf.target_name, ?_, ?_, rfl, hidx, ?_, ?_, rfl⟩
      · by_cases hw : s.name = some mf.target_name
        · simp [ModelFrame.set_target, hT, hw,
            ModelFrame.data_as_pydata_of_no_data mf hd0, concat_target, Series.to_frame]
        · simp [ModelFrame.set_target, hT, hw,
            ModelFrame.data_as_pydata_of_no_data mf hd0, concat_target, Series.to_frame]
      · exact (ModelFrame.update_target_only_spec mf s.values s.index hd0).1
      · exact (ModelFrame.update_target_only_spec mf s.values s.index hd0).2.1
      · exact (ModelFrame.update_target_only_spec mf s.values s.index hd0).2.2
  · intro vals hd hlen
    refine ⟨mf.update_inplace ⟨mf.index, (mf.target_name, vals) ::
        mf.cols.filter (fun c => c.1 != mf.target_name)⟩, ?_, ?_, rfl, rfl, ?_, ?_⟩
    · simp [ModelFrame.set_target, hT, ModelFrame.data_as_pydata_of_has_data mf hd,
        maybe_convert_data, pd_series_with_index, hlen, concat_target]
    · exact (ModelFrame.update_target_cons_spec mf vals hd).1
    · exact (ModelFrame.update_target_cons_spec mf vals hd).2.1
    · exact (ModelFrame.update_target_cons_spec mf vals hd).2.2

/-- Witness for C4: replacing the target of `exF` with a differently
named aligned series (warned) and with a raw equal-length array. -/
theorem set_target_replaces_target_preserves_features_witness :
    (exF.has_target = true ∧ exSeries.index = exF.index ∧
      ∃ mf2 warned, exF.set_target (.series exSeries) = .ok (mf2, warned) ∧
        mf2.data = exF.data ∧ mf2.target_name = exF.target_name ∧
        mf2.index = exF.index ∧ mf2.targetValues = exSeries.values ∧
        mf2.has_target = true ∧ warned = (exSeries.name != some exF.target_name)) ∧
    (exF.has_data = true ∧ ([5, 6] : List Val).length = exF.index.length ∧
      ∃ mf2, exF.set_target (.raw [5, 6]) = .ok (mf2, false) ∧
        mf2.data = exF.data ∧ mf2.target_name = exF.target_name ∧
        mf2.index = exF.index ∧ mf2.targetValues = [5, 6] ∧ mf2.has_target = true) :=
  ⟨⟨rfl, rfl,
    (set_target_replaces_target_preserves_features exF rfl).1 exSeries rfl⟩,
   ⟨rfl, rfl,
    (set_target_replaces_target_preserves_features exF rfl).2 [5, 6] rfl rfl⟩⟩
